import Mathlib

/-!
Verification development for the face-match HTTP service
(`index.js`, present in two variants A and B, plus `ecosystem.config.js`).

The service exposes `POST /compare-faces`: it resolves two image sources,
runs the external face-api.js detection pipeline on each, and reports
whether the closest pair of detected faces falls below a distance
threshold.  This file embeds the request-handling logic shallowly:

* JavaScript numbers that matter here are order-compared distances and
  thresholds; they are modelled by `ℚ`, with the JS `Infinity` initial
  value of the best-distance accumulator modelled explicitly by `JNum`.
* The external pipeline (face-api.js `detectAllFaces ... withFaceDescriptors`
  composed with `loadImage`) is abstracted as a `resolve` function from a
  request field value to either a thrown error message or a list of
  detections; each detection is reduced to its descriptor (embedding).
* `FaceMatcher.findBestMatch` is external library code (not in this
  repository); it is modelled from the spec as the nearest-neighbour
  distance into the stored embeddings.
-/

namespace FaceMatchApi

/-- A face descriptor (embedding vector), the only part of a face-api.js
detection object the handler reads (`detection1.descriptor`). -/
abbrev Desc := List ℚ

/-- A JavaScript value as it can appear in a JSON request-body field.
`undefined` models an absent field. -/
inductive JVal where
  | undefined
  | null
  | str (s : String)
  | num (q : ℚ)
  | bool (b : Bool)
deriving DecidableEq

/-- JavaScript truthiness, as tested by `if (!image1 || !image2)`:
`undefined`, `null`, the empty string, `0` and `false` are falsy. -/
def JVal.truthy : JVal → Bool
  | .undefined => false
  | .null => false
  | .str s => !(s == "")
  | .num q => !(q == 0)
  | .bool b => b

/-- A JavaScript number restricted to what the best-distance accumulator
can hold: `Infinity` (its initial value) or a finite value. -/
inductive JNum where
  | inf
  | fin (q : ℚ)
deriving DecidableEq

/-- JavaScript `<` on `JNum`: `Infinity < x` is false for every `x`,
`q < Infinity` is true for finite `q`, finite values compare numerically. -/
def JNum.ltJ : JNum → JNum → Bool
  | .inf, _ => false
  | .fin _, .inf => true
  | .fin a, .fin b => decide (a < b)

/-- The request body of `POST /compare-faces`.  Variant A destructures the
fields `image1`/`image2`, variant B the fields `image1Path`/`image2Path`;
both are modelled by `img1`/`img2`.  `threshold` is `none` when the field
is absent (JS `undefined`), so that the destructuring default
`threshold = 0.6` is `Option.getD`. -/
structure RequestBody where
  img1 : JVal
  img2 : JVal
  threshold : Option ℚ
deriving DecidableEq

/-- The successful (HTTP 200) JSON response body. -/
structure OkBody where
  matchFlag : Bool
  distance : JNum
  threshold : ℚ
  message : String
  facesDetectedImage1 : Nat
  facesDetectedImage2 : Nat
deriving DecidableEq

/-- The shapes of responses the handler can produce:
`err` for the `{ error: ... }` payloads (503, 400 missing-field, 500),
`noFace` for the 400 `{ match: false, message: ... }` payload, and
`ok` for the comparison result (`res.json` sends the default status 200). -/
inductive Response where
  | err (status : Nat) (error : String)
  | noFace (status : Nat) (matchFlag : Bool) (message : String)
  | ok (status : Nat) (body : OkBody)
deriving DecidableEq

/-- The destructuring default `threshold = 0.6`. -/
def defaultThreshold : ℚ := 3 / 5

/-- Left fold of `min` with an initial value, the shape in which both the
modelled `findBestMatch` and the handler loop compute minima. -/
def listMinQ (x : ℚ) (xs : List ℚ) : ℚ := xs.foldl min x

/-- Modelled from the spec: the nearest-neighbour distance of a query
descriptor into a non-empty collection of embeddings, i.e. the distance
reported by the pipeline's built-in nearest-match facility
(face-api.js `FaceMatcher.findBestMatch`), which is external library code
not contained in this repository.  `dist` is the library's embedding
distance function, likewise external. -/
def nnQ (dist : Desc → Desc → ℚ) (q e : Desc) (es : List Desc) : ℚ :=
  listMinQ (dist q e) (es.map (dist q))

/-- Modelled from the spec: the distance carried by
`faceMatcher.findBestMatch(q)` for a matcher built over `ds`.  The library
constructor throws on an empty input; in the handler that case sits behind
the `detections2.length === 0` guard, so the `[]` branch is unreachable
there and is given the loop-neutral value `Infinity`. -/
def findBestMatchDist (dist : Desc → Desc → ℚ) (q : Desc) : List Desc → JNum
  | [] => .inf
  | e :: es => .fin (nnQ dist q e es)

/-- The handler's `forEach` loop:
`let bestMatch = null; let bestDistance = Infinity;` then for each
detection, `if (match.distance < bestDistance) { bestDistance = ...;
bestMatch = match; }`.  The retained `bestMatch` is instrumented as the
index (in `detections1`) of the iteration whose match is currently
retained; the response reads only `bestDistance`. -/
def compareLoop (nn : Desc → JNum) :
    List Desc → Nat → Option Nat → JNum → Option Nat × JNum
  | [], _, bestMatch, bestDistance => (bestMatch, bestDistance)
  | d :: ds, i, bestMatch, bestDistance =>
    if JNum.ltJ (nn d) bestDistance then
      compareLoop nn ds (i + 1) (some i) (nn d)
    else
      compareLoop nn ds (i + 1) bestMatch bestDistance

/-- The `POST /compare-faces` handler, common to variants A and B (their
handlers differ only in the missing-field message and field names).
`modelsLoaded` is the process-wide readiness flag; `resolve` models
`loadImage` composed with
`faceapi.detectAllFaces(img).withFaceLandmarks().withFaceDescriptors()`,
returning `.error m` when that pipeline throws (caught by the handler's
`catch`, which answers 500 with the message interpolated). -/
def compareFacesWith (missingMsg : String) (modelsLoaded : Bool)
    (body : RequestBody) (resolve : JVal → Except String (List Desc))
    (dist : Desc → Desc → ℚ) : Response :=
  if !modelsLoaded then
    .err 503 "Models are still loading. Please try again shortly."
  else
    let threshold := body.threshold.getD defaultThreshold
    if !body.img1.truthy || !body.img2.truthy then
      .err 400 missingMsg
    else
      match resolve body.img1 with
      | .error e => .err 500 ("Internal server error during face comparison: " ++ e)
      | .ok detections1 =>
        match resolve body.img2 with
        | .error e => .err 500 ("Internal server error during face comparison: " ++ e)
        | .ok detections2 =>
          if detections1.length == 0 || detections2.length == 0 then
            .noFace 400 false "Could not detect faces in one or both images."
          else
            let bestDistance :=
              (compareLoop (fun d => findBestMatchDist dist d detections2)
                detections1 0 none .inf).2
            let isMatch := JNum.ltJ bestDistance (.fin threshold)
            .ok 200
              { matchFlag := isMatch
                distance := bestDistance
                threshold := threshold
                message := if isMatch then "Faces match!" else "Faces do not match."
                facesDetectedImage1 := detections1.length
                facesDetectedImage2 := detections2.length }

/-- Variant A's missing-field error payload. -/
def missingFieldsMsgA : String :=
  "Please provide both image1 and image2 in the request body. These can be URLs, local paths, or Base64 strings."

/-- Variant B's missing-field error payload. -/
def missingFieldsMsgB : String :=
  "Please provide both image1Path and image2Path in the request body."

/-- Variant A's `POST /compare-faces` handler. -/
def compareFacesA : Bool → RequestBody → (JVal → Except String (List Desc)) →
    (Desc → Desc → ℚ) → Response :=
  compareFacesWith missingFieldsMsgA

/-- Variant B's `POST /compare-faces` handler. -/
def compareFacesB : Bool → RequestBody → (JVal → Except String (List Desc)) →
    (Desc → Desc → ℚ) → Response :=
  compareFacesWith missingFieldsMsgB

/-- An HTTP response as seen by `loadImage`'s fetch branch. -/
structure FetchResponse where
  ok : Bool
  statusText : String
  body : List Nat
deriving DecidableEq

/-- JavaScript `s.startsWith(p)`, modelled by comparing the leading
`p.length` characters of `s` with `p` (`String.startsWith` itself is
byte-position based and does not reduce in the kernel). -/
def jsStartsWith (s p : String) : Bool := s.take p.length == p

/-- The regex strip
`imageSource.replace(/^data:image\/(png|jpeg|jpg);base64,/, '')` of
variant A's `loadImage`: the header is removed only when it matches one of
the three recognised forms exactly; otherwise the string is untouched. -/
def stripDataUrlHeader (s : String) : String :=
  if jsStartsWith s "data:image/png;base64," then
    s.drop ("data:image/png;base64,".length)
  else if jsStartsWith s "data:image/jpeg;base64," then
    s.drop ("data:image/jpeg;base64,".length)
  else if jsStartsWith s "data:image/jpg;base64," then
    s.drop ("data:image/jpg;base64,".length)
  else
    s

/-- The buffer-acquisition stage of variant A's `loadImage` (the acquired
buffer is subsequently piped through the sharp resize/decode stage, which
is outside the dispatch these claims concern).  `fetch` models the network
(`node-fetch`), `readFile` models `fs.readFileSync(path.resolve(...))`
with `.error` the thrown error's message, and `b64decode` models
`Buffer.from(s, 'base64')`. -/
def loadImageBufferA (fetch : String → FetchResponse)
    (readFile : String → Except String (List Nat))
    (b64decode : String → List Nat) (imageSource : String) :
    Except String (List Nat) :=
  if jsStartsWith imageSource "data:image" then
    .ok (b64decode (stripDataUrlHeader imageSource))
  else if jsStartsWith imageSource "http://" || jsStartsWith imageSource "https://" then
    let response := fetch imageSource
    if !response.ok then
      .error ("Failed to fetch image from URL: " ++ response.statusText)
    else
      .ok response.body
  else
    match readFile imageSource with
    | .ok buffer => .ok buffer
    | .error msg => .error ("Failed to read local image file: " ++ msg)

/-- The buffer-acquisition stage of variant B's `loadImage`: no
embedded-data branch, no `response.ok` check (the fetched body is used
whatever the status), and the filesystem read is not wrapped in a
`try`/`catch`, so its error propagates with its raw message. -/
def loadImageBufferB (fetch : String → FetchResponse)
    (readFile : String → Except String (List Nat)) (imagePath : String) :
    Except String (List Nat) :=
  if jsStartsWith imagePath "http://" || jsStartsWith imagePath "https://" then
    .ok (fetch imagePath).body
  else
    readFile imagePath

/-- Spec-side view: the list of nearest-match distances of each
first-image detection into the second collection `e :: es`. -/
def nnDistances (dist : Desc → Desc → ℚ) (ds1 : List Desc) (e : Desc)
    (es : List Desc) : List ℚ :=
  ds1.map (fun x => nnQ dist x e es)

/-- Concrete pipeline fixture: one detection per image, descriptors `[0]`
and `[1]`. -/
def wResolve : JVal → Except String (List Desc) := fun v =>
  match v with
  | .str "a.jpg" => .ok [[0]]
  | _ => .ok [[1]]

/-- Concrete pipeline fixture: zero detections for the first image, one
for the second. -/
def wResolveEmpty : JVal → Except String (List Desc) := fun v =>
  match v with
  | .str "a.jpg" => .ok []
  | _ => .ok [[1]]

/-- Concrete distance fixture: absolute difference of leading
coordinates (non-negative). -/
def wDist : Desc → Desc → ℚ := fun a b => |a.headD 0 - b.headD 0|

/-- Concrete request fixture with no threshold field. -/
def wBody : RequestBody :=
  { img1 := .str "a.jpg", img2 := .str "b.jpg", threshold := none }

/-- Concrete request fixture with an explicit `threshold = 0`. -/
def wBodyZero : RequestBody :=
  { img1 := .str "a.jpg", img2 := .str "b.jpg", threshold := some 0 }

/-- Concrete request fixture with the first image field absent. -/
def wBodyMissing : RequestBody :=
  { img1 := .undefined, img2 := .str "b.jpg", threshold := none }

/-- Concrete request fixture with the first image field present but equal
to the empty string. -/
def wBodyEmptyStr : RequestBody :=
  { img1 := .str "", img2 := .str "b.jpg", threshold := some 1 }

/-- Concrete network fixture: every fetch yields a non-success response
with status text `Not Found` and body `[1, 2, 3]`. -/
def cFetchBad : String → FetchResponse :=
  fun _ => { ok := false, statusText := "Not Found", body := [1, 2, 3] }

/-- Concrete filesystem fixture: every read fails with an ENOENT
message. -/
def cReadFileErr : String → Except String (List Nat) :=
  fun _ => .error "ENOENT: no such file or directory"

/-- Concrete base64-decoder fixture (stand-in for `Buffer.from`). -/
def cB64 : String → List Nat := fun s => [s.length]

end FaceMatchApi

namespace FaceMatchApi

/-- `listMinQ` never exceeds its initial value. -/
lemma listMinQ_le_self (x : ℚ) (xs : List ℚ) : listMinQ x xs ≤ x := by
  induction xs generalizing x with
  | nil => exact le_refl x
  | cons y ys ih =>
    calc listMinQ x (y :: ys) = listMinQ (min x y) ys := rfl
    _ ≤ min x y := ih (min x y)
    _ ≤ x := min_le_left x y

/-- `listMinQ` is a lower bound of the initial value and every element. -/
lemma listMinQ_le_mem (x : ℚ) (xs : List ℚ) :
    ∀ v ∈ x :: xs, listMinQ x xs ≤ v := by
  induction xs generalizing x with
  | nil =>
    intro v hv
    rcases List.mem_singleton.mp hv with rfl
    exact le_refl v
  | cons y ys ih =>
    intro v hv
    rcases List.mem_cons.mp hv with rfl | hv2
    · calc listMinQ v (y :: ys) = listMinQ (min v y) ys := rfl
      _ ≤ min v y := listMinQ_le_self _ _
      _ ≤ v := min_le_left v y
    · rcases List.mem_cons.mp hv2 with rfl | hv3
      · calc listMinQ x (v :: ys) = listMinQ (min x v) ys := rfl
        _ ≤ min x v := listMinQ_le_self _ _
        _ ≤ v := min_le_right x v
      · exact ih (min x y) v (List.mem_cons_of_mem _ hv3)

/-- `listMinQ` is attained: it is the initial value or some element. -/
lemma listMinQ_mem (x : ℚ) (xs : List ℚ) :
    listMinQ x xs = x ∨ listMinQ x xs ∈ xs := by
  induction xs generalizing x with
  | nil => exact Or.inl rfl
  | cons y ys ih =>
    have step : listMinQ x (y :: ys) = listMinQ (min x y) ys := rfl
    rcases ih (min x y) with h | h
    · rcases min_choice x y with hm | hm
      · exact Or.inl (by rw [step, h, hm])
      · exact Or.inr (by rw [step, h, hm]; exact List.mem_cons_self y ys)
    · exact Or.inr (List.mem_cons_of_mem y (step ▸ h))

/-- `listMinQ` of non-negative inputs is non-negative. -/
lemma listMinQ_nonneg (x : ℚ) (xs : List ℚ) (hx : 0 ≤ x)
    (hxs : ∀ v ∈ xs, 0 ≤ v) : 0 ≤ listMinQ x xs := by
  rcases listMinQ_mem x xs with h | h
  · rw [h]; exact hx
  · exact hxs _ h

/-- The best-distance component of the handler loop, run from a finite
accumulator, is the running minimum. -/
lemma compareLoop_snd_fin (nnq : Desc → ℚ) (ds : List Desc) (i : Nat)
    (bm : Option Nat) (b : ℚ) :
    (compareLoop (fun d => JNum.fin (nnq d)) ds i bm (.fin b)).2 =
      .fin (listMinQ b (ds.map nnq)) := by
  induction ds generalizing i bm b with
  | nil => rfl
  | cons d t ih =>
    by_cases h : nnq d < b
    · have hlt : JNum.ltJ (.fin (nnq d)) (.fin b) = true := by
        simp [JNum.ltJ, h]
      calc (compareLoop (fun d => JNum.fin (nnq d)) (d :: t) i bm (.fin b)).2
          = (compareLoop (fun d => JNum.fin (nnq d)) t (i + 1) (some i)
              (.fin (nnq d))).2 := by
            simp only [compareLoop, hlt, if_true]
      _ = .fin (listMinQ (nnq d) (t.map nnq)) := ih _ _ _
      _ = .fin (listMinQ (min b (nnq d)) (t.map nnq)) := by
            rw [min_eq_right h.le]
      _ = .fin (listMinQ b ((d :: t).map nnq)) := rfl
    · have hlt : JNum.ltJ (.fin (nnq d)) (.fin b) = false := by
        simp [JNum.ltJ, h]
      calc (compareLoop (fun d => JNum.fin (nnq d)) (d :: t) i bm (.fin b)).2
          = (compareLoop (fun d => JNum.fin (nnq d)) t (i + 1) bm (.fin b)).2 := by
            simp only [compareLoop, hlt, Bool.false_eq_true, if_false]
      _ = .fin (listMinQ b (t.map nnq)) := ih _ _ _
      _ = .fin (listMinQ (min b (nnq d)) (t.map nnq)) := by
            rw [min_eq_left (not_lt.mp h)]
      _ = .fin (listMinQ b ((d :: t).map nnq)) := rfl

end FaceMatchApi

namespace FaceMatchApi

/-- The retained-match component of the handler loop, run from a finite
accumulator `b` with a previously retained index `j`: if some later value
improves on `b` strictly, the retained index is that of the first
occurrence of the overall minimum; otherwise `j` is kept. -/
lemma compareLoop_fst_gen (nnq : Desc → ℚ) (ds : List Desc) (i j : Nat)
    (b : ℚ) :
    (compareLoop (fun d => JNum.fin (nnq d)) ds i (some j) (.fin b)).1 =
      if listMinQ b (ds.map nnq) < b then
        some (i + (ds.map nnq).findIdx
          (fun v => decide (v = listMinQ b (ds.map nnq))))
      else some j := by
  induction ds generalizing i j b with
  | nil => simp [compareLoop, listMinQ]
  | cons d t ih =>
    by_cases h : nnq d < b
    · have hlt : JNum.ltJ (.fin (nnq d)) (.fin b) = true := by
        simp [JNum.ltJ, h]
      have hstep :
          (compareLoop (fun d => JNum.fin (nnq d)) (d :: t) i (some j)
            (.fin b)).1 =
          (compareLoop (fun d => JNum.fin (nnq d)) t (i + 1) (some i)
            (.fin (nnq d))).1 := by
        simp only [compareLoop, hlt, if_true]
      have hmin : listMinQ b ((d :: t).map nnq) = listMinQ (nnq d) (t.map nnq) := by
        show listMinQ (min b (nnq d)) (t.map nnq) = _
        rw [min_eq_right h.le]
      have hcondR : listMinQ b ((d :: t).map nnq) < b := by
        rw [hmin]
        exact lt_of_le_of_lt (listMinQ_le_self _ _) h
      rw [hstep, ih, if_pos hcondR, hmin]
      by_cases hM : listMinQ (nnq d) (t.map nnq) < nnq d
      · have hne : ¬ (nnq d = listMinQ (nnq d) (t.map nnq)) := by
          exact fun he => absurd hM (by rw [← he]; exact lt_irrefl _)
        rw [if_pos hM]
        have hidx : ((d :: t).map nnq).findIdx
            (fun v => decide (v = listMinQ (nnq d) (t.map nnq))) =
            (t.map nnq).findIdx
              (fun v => decide (v = listMinQ (nnq d) (t.map nnq))) + 1 := by
          show List.findIdx _ (nnq d :: t.map nnq) = _
          rw [List.findIdx_cons]
          simp [hne]
        rw [hidx]
        congr 1
        omega
      · have heq : listMinQ (nnq d) (t.map nnq) = nnq d :=
          le_antisymm (listMinQ_le_self _ _) (not_lt.mp hM)
        rw [if_neg hM]
        have hidx : ((d :: t).map nnq).findIdx
            (fun v => decide (v = listMinQ (nnq d) (t.map nnq))) = 0 := by
          show List.findIdx _ (nnq d :: t.map nnq) = 0
          rw [List.findIdx_cons]
          simp [heq]
        rw [hidx]
        simp
    · have hlt : JNum.ltJ (.fin (nnq d)) (.fin b) = false := by
        simp [JNum.ltJ, h]
      have hstep :
          (compareLoop (fun d => JNum.fin (nnq d)) (d :: t) i (some j)
            (.fin b)).1 =
          (compareLoop (fun d => JNum.fin (nnq d)) t (i + 1) (some j)
            (.fin b)).1 := by
        simp only [compareLoop, hlt, Bool.false_eq_true, if_false]
      have hmin : listMinQ b ((d :: t).map nnq) = listMinQ b (t.map nnq) := by
        show listMinQ (min b (nnq d)) (t.map nnq) = _
        rw [min_eq_left (not_lt.mp h)]
      rw [hstep, ih, hmin]
      by_cases hc : listMinQ b (t.map nnq) < b
      · have hne : ¬ (nnq d = listMinQ b (t.map nnq)) := by
          intro he
        -- the minimum is strictly below b ≤ nnq d
          have : nnq d < b := he ▸ hc
          exact h this
        rw [if_pos hc, if_pos hc]
        have hidx : ((d :: t).map nnq).findIdx
            (fun v => decide (v = listMinQ b (t.map nnq))) =
            (t.map nnq).findIdx (fun v => decide (v = listMinQ b (t.map nnq))) + 1 := by
          show List.findIdx _ (nnq d :: t.map nnq) = _
          rw [List.findIdx_cons]
          simp [hne]
        rw [hidx]
        congr 1
        omega
      · rw [if_neg hc, if_neg hc]

/-- Running the handler loop from its initial state (`bestMatch = null`,
`bestDistance = Infinity`) on a non-empty detection list yields the
minimum of the nearest-match distances, retaining the first iteration
that attains it. -/
lemma compareLoop_inf (nnq : Desc → ℚ) (d : Desc) (t : List Desc) :
    compareLoop (fun x => JNum.fin (nnq x)) (d :: t) 0 none .inf =
      (some (((d :: t).map nnq).findIdx
          (fun v => decide (v = listMinQ (nnq d) (t.map nnq)))),
        .fin (listMinQ (nnq d) (t.map nnq))) := by
  have hstep : compareLoop (fun x => JNum.fin (nnq x)) (d :: t) 0 none .inf =
      compareLoop (fun x => JNum.fin (nnq x)) t 1 (some 0) (.fin (nnq d)) := by
    simp only [compareLoop, JNum.ltJ, if_true]
  rw [hstep]
  apply Prod.ext
  · rw [compareLoop_fst_gen]
    by_cases hM : listMinQ (nnq d) (t.map nnq) < nnq d
    · have hne : ¬ (nnq d = listMinQ (nnq d) (t.map nnq)) := by
        exact fun he => absurd hM (by rw [← he]; exact lt_irrefl _)
      rw [if_pos hM]
      show _ = some (List.findIdx _ (nnq d :: t.map nnq))
      rw [List.findIdx_cons]
      simp [hne]
      omega
    · have heq : listMinQ (nnq d) (t.map nnq) = nnq d :=
        le_antisymm (listMinQ_le_self _ _) (not_lt.mp hM)
      rw [if_neg hM]
      show _ = some (List.findIdx _ (nnq d :: t.map nnq))
      rw [List.findIdx_cons]
      simp [heq]
  · exact compareLoop_snd_fin nnq t 1 (some 0) (nnq d)

end FaceMatchApi

namespace FaceMatchApi

/-- Characterization of the handler on the success path: models loaded,
both fields truthy, both resolutions succeeding with at least one
detection each.  The response is 200 with distance the minimum over the
first collection of nearest-match distances into the second, compared
strictly against the (defaulted) threshold. -/
lemma compareFaces_ok_charact (missingMsg : String) (body : RequestBody)
    (resolve : JVal → Except String (List Desc)) (dist : Desc → Desc → ℚ)
    (d1 : Desc) (l1 : List Desc) (e : Desc) (es : List Desc)
    (h1 : body.img1.truthy = true) (h2 : body.img2.truthy = true)
    (hr1 : resolve body.img1 = .ok (d1 :: l1))
    (hr2 : resolve body.img2 = .ok (e :: es)) :
    compareFacesWith missingMsg true body resolve dist =
      .ok 200
        { matchFlag := decide (listMinQ (nnQ dist d1 e es)
            (l1.map (fun x => nnQ dist x e es)) <
            body.threshold.getD defaultThreshold)
          distance := .fin (listMinQ (nnQ dist d1 e es)
            (l1.map (fun x => nnQ dist x e es)))
          threshold := body.threshold.getD defaultThreshold
          message := if listMinQ (nnQ dist d1 e es)
              (l1.map (fun x => nnQ dist x e es)) <
              body.threshold.getD defaultThreshold
            then "Faces match!" else "Faces do not match."
          facesDetectedImage1 := (d1 :: l1).length
          facesDetectedImage2 := (e :: es).length } := by
  simp only [compareFacesWith, h1, h2, hr1, hr2, Bool.not_true, Bool.or_self,
    Bool.false_or, Bool.or_false, if_false, if_true, findBestMatchDist]
  simp [compareLoop_inf, JNum.ltJ]

end FaceMatchApi

namespace FaceMatchApi

/-- Claim C1: for every comparison in which both images yield at least
one detection, the response's match flag is true if and only if the
reported distance is strictly less than the threshold (the
caller-supplied value, or 0.6 when none is supplied). -/
theorem claim_c1_match_iff_below_threshold (missingMsg : String)
    (body : RequestBody) (resolve : JVal → Except String (List Desc))
    (dist : Desc → Desc → ℚ) (d1 : Desc) (l1 : List Desc) (e : Desc)
    (es : List Desc) (h1 : body.img1.truthy = true)
    (h2 : body.img2.truthy = true)
    (hr1 : resolve body.img1 = .ok (d1 :: l1))
    (hr2 : resolve body.img2 = .ok (e :: es)) :
    ∃ b : OkBody,
      compareFacesWith missingMsg true body resolve dist = .ok 200 b ∧
      b.threshold = body.threshold.getD defaultThreshold ∧
      (b.matchFlag = true ↔
        JNum.ltJ b.distance (.fin b.threshold) = true) := by
  refine ⟨_, compareFaces_ok_charact missingMsg body resolve dist d1 l1 e es
    h1 h2 hr1 hr2, rfl, ?_⟩
  simp [JNum.ltJ]

/-- Witness for C1 at a concrete request: fixture images with one
detection each and no threshold field. -/
theorem claim_c1_witness :
    ∃ b : OkBody,
      compareFacesWith missingFieldsMsgA true wBody wResolve wDist =
        .ok 200 b ∧
      b.threshold = wBody.threshold.getD defaultThreshold ∧
      (b.matchFlag = true ↔
        JNum.ltJ b.distance (.fin b.threshold) = true) :=
  claim_c1_match_iff_below_threshold missingFieldsMsgA wBody wResolve wDist
    [0] [] [1] [] (by decide) (by decide) rfl rfl

/-- Claim C2: for non-empty detection collections the 200 response's
distance is the minimum, over the first image's detections, of each
detection's nearest-neighbour distance into the second image's
embeddings (it is attained and is a lower bound), and the loop retains
the first-encountered minimum in traversal order (the retained index is
the first position whose value equals the minimum). -/
theorem claim_c2_distance_min_first_encountered (missingMsg : String)
    (body : RequestBody) (resolve : JVal → Except String (List Desc))
    (dist : Desc → Desc → ℚ) (d1 : Desc) (l1 : List Desc) (e : Desc)
    (es : List Desc) (h1 : body.img1.truthy = true)
    (h2 : body.img2.truthy = true)
    (hr1 : resolve body.img1 = .ok (d1 :: l1))
    (hr2 : resolve body.img2 = .ok (e :: es)) :
    ∃ b : OkBody,
      compareFacesWith missingMsg true body resolve dist = .ok 200 b ∧
      b.distance = .fin (listMinQ (nnQ dist d1 e es)
        (nnDistances dist l1 e es)) ∧
      listMinQ (nnQ dist d1 e es) (nnDistances dist l1 e es) ∈
        nnDistances dist (d1 :: l1) e es ∧
      (∀ v ∈ nnDistances dist (d1 :: l1) e es,
        listMinQ (nnQ dist d1 e es) (nnDistances dist l1 e es) ≤ v) ∧
      (compareLoop (fun x => findBestMatchDist dist x (e :: es))
          (d1 :: l1) 0 none .inf).1 =
        some ((nnDistances dist (d1 :: l1) e es).findIdx
          (fun v => decide (v = listMinQ (nnQ dist d1 e es)
            (nnDistances dist l1 e es)))) := by
  refine ⟨_, compareFaces_ok_charact missingMsg body resolve dist d1 l1 e es
    h1 h2 hr1 hr2, rfl, ?_, ?_, ?_⟩
  · rcases listMinQ_mem (nnQ dist d1 e es) (nnDistances dist l1 e es) with h | h
    · rw [h]
      exact List.mem_cons_self _ _
    · exact List.mem_cons_of_mem _ h
  · exact listMinQ_le_mem _ _
  · show (compareLoop (fun x => JNum.fin (nnQ dist x e es))
        (d1 :: l1) 0 none .inf).1 = _
    rw [compareLoop_inf]
    rfl

/-- Witness for C2 at the concrete fixture request. -/
theorem claim_c2_witness :
    ∃ b : OkBody,
      compareFacesWith missingFieldsMsgA true wBody wResolve wDist =
        .ok 200 b ∧
      b.distance = .fin (listMinQ (nnQ wDist [0] [1] [])
        (nnDistances wDist [] [1] [])) ∧
      listMinQ (nnQ wDist [0] [1] []) (nnDistances wDist [] [1] []) ∈
        nnDistances wDist [[0]] [1] [] ∧
      (∀ v ∈ nnDistances wDist [[0]] [1] [],
        listMinQ (nnQ wDist [0] [1] []) (nnDistances wDist [] [1] []) ≤ v) ∧
      (compareLoop (fun x => findBestMatchDist wDist x [[1]])
          [[0]] 0 none .inf).1 =
        some ((nnDistances wDist [[0]] [1] []).findIdx
          (fun v => decide (v = listMinQ (nnQ wDist [0] [1] [])
            (nnDistances wDist [] [1] [])))) :=
  claim_c2_distance_min_first_encountered missingFieldsMsgA wBody wResolve
    wDist [0] [] [1] [] (by decide) (by decide) rfl rfl

/-- Claim C3: whenever either image's detection collection is empty, the
response is HTTP 400 with `match: false` — even when the other
collection is non-empty — and no match computation is attempted (the
response does not depend on the distance function at all). -/
theorem claim_c3_empty_detections_400 (missingMsg : String)
    (body : RequestBody) (resolve : JVal → Except String (List Desc))
    (dist : Desc → Desc → ℚ) (ds1 ds2 : List Desc)
    (h1 : body.img1.truthy = true) (h2 : body.img2.truthy = true)
    (hr1 : resolve body.img1 = .ok ds1)
    (hr2 : resolve body.img2 = .ok ds2)
    (hempty : ds1.length = 0 ∨ ds2.length = 0) :
    compareFacesWith missingMsg true body resolve dist =
      .noFace 400 false "Could not detect faces in one or both images." ∧
    ∀ dist2 : Desc → Desc → ℚ,
      compareFacesWith missingMsg true body resolve dist2 =
        .noFace 400 false "Could not detect faces in one or both images." := by
  have hgen : ∀ dist2 : Desc → Desc → ℚ,
      compareFacesWith missingMsg true body resolve dist2 =
        .noFace 400 false "Could not detect faces in one or both images." := by
    intro dist2
    rcases hempty with h | h
    · simp [compareFacesWith, h1, h2, hr1, hr2, h]
    · simp [compareFacesWith, h1, h2, hr1, hr2, h]
  exact ⟨hgen dist, hgen⟩

/-- Witness for C3: first image with zero detections, second with one. -/
theorem claim_c3_witness :
    compareFacesWith missingFieldsMsgA true wBody wResolveEmpty wDist =
      .noFace 400 false "Could not detect faces in one or both images." ∧
    ∀ dist2 : Desc → Desc → ℚ,
      compareFacesWith missingFieldsMsgA true wBody wResolveEmpty dist2 =
        .noFace 400 false "Could not detect faces in one or both images." :=
  claim_c3_empty_detections_400 missingFieldsMsgA wBody wResolveEmpty wDist
    [] [[1]] (by decide) (by decide) rfl rfl (Or.inl rfl)

/-- Claim C4: every comparison request received while the models-loaded
flag is false is answered 503 with the fixed message, and the detection
pipeline is never invoked: the response does not depend on the resolver
or the distance function. -/
theorem claim_c4_loading_503 (missingMsg : String) (body : RequestBody)
    (resolve : JVal → Except String (List Desc)) (dist : Desc → Desc → ℚ) :
    compareFacesWith missingMsg false body resolve dist =
      .err 503 "Models are still loading. Please try again shortly." ∧
    ∀ (resolve2 : JVal → Except String (List Desc))
      (dist2 : Desc → Desc → ℚ),
      compareFacesWith missingMsg false body resolve2 dist2 =
        compareFacesWith missingMsg false body resolve dist :=
  ⟨rfl, fun _ _ => rfl⟩

end FaceMatchApi

namespace FaceMatchApi

/-- If the library distance function is non-negative, so is every
nearest-match distance. -/
lemma nnQ_nonneg (dist : Desc → Desc → ℚ) (hd : ∀ a b, 0 ≤ dist a b)
    (q e : Desc) (es : List Desc) : 0 ≤ nnQ dist q e es := by
  apply listMinQ_nonneg _ _ (hd q e)
  intro v hv
  rcases List.mem_map.mp hv with ⟨x, _, rfl⟩
  exact hd q x

/-- Claim C7: with `threshold = 0` supplied and both images yielding at
least one detection, the match flag is false unless the computed
distance is exactly 0 (the distance function being non-negative, as any
embedding distance is). -/
theorem claim_c7_zero_threshold_no_match (missingMsg : String)
    (body : RequestBody) (resolve : JVal → Except String (List Desc))
    (dist : Desc → Desc → ℚ) (d1 : Desc) (l1 : List Desc) (e : Desc)
    (es : List Desc) (h1 : body.img1.truthy = true)
    (h2 : body.img2.truthy = true)
    (hr1 : resolve body.img1 = .ok (d1 :: l1))
    (hr2 : resolve body.img2 = .ok (e :: es))
    (hth : body.threshold = some 0)
    (hd : ∀ a b, 0 ≤ dist a b) :
    ∃ b : OkBody,
      compareFacesWith missingMsg true body resolve dist = .ok 200 b ∧
      (b.matchFlag = true → b.distance = .fin 0) := by
  refine ⟨_, compareFaces_ok_charact missingMsg body resolve dist d1 l1 e es
    h1 h2 hr1 hr2, ?_⟩
  intro hmatch
  have hM : 0 ≤ listMinQ (nnQ dist d1 e es)
      (List.map (fun x => nnQ dist x e es) l1) := by
    apply listMinQ_nonneg _ _ (nnQ_nonneg dist hd d1 e es)
    intro v hv
    rcases List.mem_map.mp hv with ⟨x, _, rfl⟩
    exact nnQ_nonneg dist hd x e es
  have hlt : listMinQ (nnQ dist d1 e es)
      (List.map (fun x => nnQ dist x e es) l1) <
      body.threshold.getD defaultThreshold := of_decide_eq_true hmatch
  rw [hth] at hlt
  exact absurd hlt (not_lt.mpr hM)

/-- Witness for C7: fixture request with an explicit `threshold = 0` and
the absolute-difference distance. -/
theorem claim_c7_witness :
    ∃ b : OkBody,
      compareFacesWith missingFieldsMsgA true wBodyZero wResolve wDist =
        .ok 200 b ∧
      (b.matchFlag = true → b.distance = .fin 0) :=
  claim_c7_zero_threshold_no_match missingFieldsMsgA wBodyZero wResolve
    wDist [0] [] [1] [] (by decide) (by decide) rfl rfl rfl
    (fun a b => abs_nonneg _)

/-- Claim C8: a comparison request missing either image field is
answered HTTP 400 with the fixed error payload of the respective
variant, regardless of the values of any other fields (the request body
and the environment are universally quantified). -/
theorem claim_c8_missing_field_400 (body : RequestBody)
    (resolve : JVal → Except String (List Desc)) (dist : Desc → Desc → ℚ)
    (hmiss : body.img1 = JVal.undefined ∨ body.img2 = JVal.undefined) :
    compareFacesA true body resolve dist = .err 400 missingFieldsMsgA ∧
    compareFacesB true body resolve dist = .err 400 missingFieldsMsgB := by
  rcases hmiss with h | h <;>
    constructor <;>
    simp [compareFacesA, compareFacesB, compareFacesWith, h, JVal.truthy]

/-- Witness for C8: a request whose first image field is absent. -/
theorem claim_c8_witness :
    compareFacesA true wBodyMissing wResolve wDist =
      .err 400 missingFieldsMsgA ∧
    compareFacesB true wBodyMissing wResolve wDist =
      .err 400 missingFieldsMsgB :=
  claim_c8_missing_field_400 wBodyMissing wResolve wDist (Or.inl rfl)

/-- Claim C9: the default threshold 0.6 is applied exactly when the
body's threshold field is absent (`undefined`); an explicitly supplied
threshold — including the falsy value 0 — is preserved and used for the
comparison. -/
theorem claim_c9_threshold_default_only_when_absent (missingMsg : String)
    (body : RequestBody) (resolve : JVal → Except String (List Desc))
    (dist : Desc → Desc → ℚ) (d1 : Desc) (l1 : List Desc) (e : Desc)
    (es : List Desc) (h1 : body.img1.truthy = true)
    (h2 : body.img2.truthy = true)
    (hr1 : resolve body.img1 = .ok (d1 :: l1))
    (hr2 : resolve body.img2 = .ok (e :: es)) :
    ∃ b : OkBody,
      compareFacesWith missingMsg true body resolve dist = .ok 200 b ∧
      (body.threshold = none → b.threshold = defaultThreshold) ∧
      (∀ q : ℚ, body.threshold = some q → b.threshold = q) ∧
      (b.matchFlag = true ↔
        JNum.ltJ b.distance (.fin b.threshold) = true) := by
  refine ⟨_, compareFaces_ok_charact missingMsg body resolve dist d1 l1 e es
    h1 h2 hr1 hr2, ?_, ?_, ?_⟩
  · intro h
    show body.threshold.getD defaultThreshold = defaultThreshold
    rw [h]
    rfl
  · intro q h
    show body.threshold.getD defaultThreshold = q
    rw [h]
    rfl
  · simp [JNum.ltJ]

/-- Witness for C9: fixture request carrying `threshold = 0`, for which
the used threshold is 0, not 0.6. -/
theorem claim_c9_witness :
    ∃ b : OkBody,
      compareFacesWith missingFieldsMsgA true wBodyZero wResolve wDist =
        .ok 200 b ∧
      (wBodyZero.threshold = none → b.threshold = defaultThreshold) ∧
      (∀ q : ℚ, wBodyZero.threshold = some q → b.threshold = q) ∧
      (b.matchFlag = true ↔
        JNum.ltJ b.distance (.fin b.threshold) = true) :=
  claim_c9_threshold_default_only_when_absent missingFieldsMsgA wBodyZero
    wResolve wDist [0] [] [1] [] (by decide) (by decide) rfl rfl

/-- Claim C10: a comparison request in which either image field is
present but falsy (for instance the empty string) is answered HTTP 400
with the same fixed payload as for an absent field, before any image
resolution or detection is attempted (the response does not depend on
the resolver or the distance function). -/
theorem claim_c10_falsy_field_400 (body : RequestBody)
    (hfalsy : body.img1.truthy = false ∨ body.img2.truthy = false) :
    (∀ (resolve : JVal → Except String (List Desc))
      (dist : Desc → Desc → ℚ),
      compareFacesA true body resolve dist = .err 400 missingFieldsMsgA) ∧
    (∀ (resolve : JVal → Except String (List Desc))
      (dist : Desc → Desc → ℚ),
      compareFacesB true body resolve dist = .err 400 missingFieldsMsgB) := by
  constructor <;> intro resolve dist <;> rcases hfalsy with h | h <;>
    simp [compareFacesA, compareFacesB, compareFacesWith, h]

/-- Witness for C10: a request whose first image field is the empty
string. -/
theorem claim_c10_witness :
    (∀ (resolve : JVal → Except String (List Desc))
      (dist : Desc → Desc → ℚ),
      compareFacesA true wBodyEmptyStr resolve dist =
        .err 400 missingFieldsMsgA) ∧
    (∀ (resolve : JVal → Except String (List Desc))
      (dist : Desc → Desc → ℚ),
      compareFacesB true wBodyEmptyStr resolve dist =
        .err 400 missingFieldsMsgB) :=
  claim_c10_falsy_field_400 wBodyEmptyStr (Or.inl (by decide))

end FaceMatchApi

namespace FaceMatchApi

/-- Counterexample to claim C5 as stated: in variant B, a fetch whose
response has non-success status (`ok = false`, status text `Not Found`)
does not make resolution fail — the response body is passed on to
decoding. -/
theorem claim_c5_counterexample :
    (cFetchBad "http://example.com/a.jpg").ok = false ∧
    loadImageBufferB cFetchBad cReadFileErr "http://example.com/a.jpg" =
      .ok [1, 2, 3] :=
  ⟨rfl, rfl⟩

/-- Claim C5 (amended): for every http/https image source whose fetch
response has non-success status, variant A's resolver fails with an
error carrying the upstream status text; variant B performs no status
check and passes the response body on to decoding. -/
theorem claim_c5_amended_nonsuccess_fetch (fetch : String → FetchResponse)
    (readFile : String → Except String (List Nat))
    (b64decode : String → List Nat) (s : String)
    (hurl : jsStartsWith s "http://" = true ∨
      jsStartsWith s "https://" = true)
    (hnotdata : jsStartsWith s "data:image" = false)
    (hfail : (fetch s).ok = false) :
    loadImageBufferA fetch readFile b64decode s =
      .error ("Failed to fetch image from URL: " ++ (fetch s).statusText) ∧
    loadImageBufferB fetch readFile s = .ok (fetch s).body := by
  constructor
  · rcases hurl with h | h <;> simp [loadImageBufferA, hnotdata, h, hfail]
  · rcases hurl with h | h <;> simp [loadImageBufferB, h]

/-- Witness for the amended C5 at a concrete URL and fetch fixture. -/
theorem claim_c5_witness :
    loadImageBufferA cFetchBad cReadFileErr cB64 "http://example.com/a.jpg" =
      .error ("Failed to fetch image from URL: " ++
        (cFetchBad "http://example.com/a.jpg").statusText) ∧
    loadImageBufferB cFetchBad cReadFileErr "http://example.com/a.jpg" =
      .ok (cFetchBad "http://example.com/a.jpg").body :=
  claim_c5_amended_nonsuccess_fetch cFetchBad cReadFileErr cB64
    "http://example.com/a.jpg" (Or.inl (by decide)) (by decide) rfl

/-- Counterexample to claim C6 as stated: in variant B, a string that
begins with the embedded-image-data prefix is not base64-decoded — it is
treated as a local filesystem path (here the read attempt fails with the
filesystem's ENOENT error). -/
theorem claim_c6_counterexample :
    jsStartsWith "data:image/png;base64,QUJD" "data:image" = true ∧
    loadImageBufferB cFetchBad cReadFileErr "data:image/png;base64,QUJD" =
      .error "ENOENT: no such file or directory" :=
  ⟨rfl, rfl⟩

/-- Claim C6 (amended): variant A's resolver dispatches in the stated
fixed order — embedded-image-data prefix first (base64 decode of the
stripped payload), then http/https (network fetch), else local
filesystem read whose failure produces an error carrying the underlying
I/O cause.  Variant B has no embedded-data branch: every non-http(s)
string, data-prefixed or not, goes to the filesystem read, whose raw
error propagates. -/
theorem claim_c6_amended_dispatch_order (fetch : String → FetchResponse)
    (readFile : String → Except String (List Nat))
    (b64decode : String → List Nat) (s : String) :
    (jsStartsWith s "data:image" = true →
      loadImageBufferA fetch readFile b64decode s =
        .ok (b64decode (stripDataUrlHeader s))) ∧
    (jsStartsWith s "data:image" = false →
      jsStartsWith s "http://" = true ∨ jsStartsWith s "https://" = true →
      loadImageBufferA fetch readFile b64decode s =
        (if (fetch s).ok then .ok (fetch s).body
          else .error ("Failed to fetch image from URL: " ++
            (fetch s).statusText))) ∧
    (jsStartsWith s "data:image" = false →
      jsStartsWith s "http://" = false → jsStartsWith s "https://" = false →
      (∀ msg, readFile s = .error msg →
        loadImageBufferA fetch readFile b64decode s =
          .error ("Failed to read local image file: " ++ msg)) ∧
      (∀ buffer, readFile s = .ok buffer →
        loadImageBufferA fetch readFile b64decode s = .ok buffer)) ∧
    (jsStartsWith s "http://" = false → jsStartsWith s "https://" = false →
      loadImageBufferB fetch readFile s = readFile s) := by
  refine ⟨?_, ?_, ?_, ?_⟩
  · intro h
    simp [loadImageBufferA, h]
  · intro hd hurl
    rcases hurl with h | h <;>
      cases hok : (fetch s).ok <;>
        simp [loadImageBufferA, hd, h, hok]
  · intro hd h1 h2
    constructor
    · intro msg hm
      simp [loadImageBufferA, hd, h1, h2, hm]
    · intro buffer hb
      simp [loadImageBufferA, hd, h1, h2, hb]
  · intro h1 h2
    simp [loadImageBufferB, h1, h2]

/-- Witness for the amended C6: a data-URL string is base64-decoded by
variant A after header stripping, and a plain path goes to the
filesystem in variant B. -/
theorem claim_c6_witness :
    loadImageBufferA cFetchBad cReadFileErr cB64 "data:image/png;base64,QUJD" =
      .ok (cB64 (stripDataUrlHeader "data:image/png;base64,QUJD")) ∧
    loadImageBufferB cFetchBad cReadFileErr "person1.jpg" =
      cReadFileErr "person1.jpg" :=
  ⟨(claim_c6_amended_dispatch_order cFetchBad cReadFileErr cB64
      "data:image/png;base64,QUJD").1 (by decide),
    (claim_c6_amended_dispatch_order cFetchBad cReadFileErr cB64
      "person1.jpg").2.2.2 (by decide) (by decide)⟩

end FaceMatchApi
